import Mathlib

/-
Verification of the storage-lifecycle and usage-quota subsystem of the
meal-logging application (functions/src/cleanupOldImages.ts,
functions/src/storageOptimization.ts, functions/src/config/storageConfig.ts).

Modelling conventions:
* Timestamps are milliseconds since the Unix epoch, as `Int` (JS `Date`
  values).  `Date.setDate` arithmetic is modelled as whole-day millisecond
  arithmetic, valid for a DST-free runtime clock such as UTC.
* A Firestore document field that may be `null` or absent is an `Option`.
* JS decimal literals (0.9, 0.026, ...) are modelled exactly as rationals.
* Effectful calls (object-store delete, document update) are modelled by an
  explicit trace of attempted operations plus environment functions saying
  which operations succeed; a thrown exception is the `false`/`error` branch.
* The ISO day string `toISOString().split('T')[0]` is represented by the
  underlying day number (the rendering is injective on day numbers).
-/

namespace Tracker

/-! ## Quota ledger (functions/src/index.ts: checkAndIncrementUsage,
getRemainingRequests).  The per-user-per-day counter document is an
`Option Nat`: `none` when the document does not exist, `some c` when it
stores `count = c` (a missing/zero `count` field is coerced to 0 by
`usageDoc.data()?.count || 0`, which `Option.getD 0` captures). -/

def DAILY_REQUEST_LIMIT : Nat := 10

/-- Count read out of the counter document (`usageDoc.exists ? data?.count || 0 : 0`). -/
def docCount (doc : Option Nat) : Nat := doc.getD 0

/-- Body of the Firestore transaction in `checkAndIncrementUsage`:
read the current count, and only if strictly below the ceiling write
`count + 1` and return `true`; otherwise leave the document alone and
return `false`. -/
def checkTx (doc : Option Nat) : Bool × Option Nat :=
  let currentCount := docCount doc
  if currentCount ≥ DAILY_REQUEST_LIMIT then
    (false, doc)
  else
    (true, some (currentCount + 1))

/-- `db.runTransaction`: either commits the transaction body atomically or
fails without committing anything (`txFails` models store unavailability /
a transaction failure). -/
def runUsageTransaction (txFails : Bool) (doc : Option Nat) :
    Except Unit (Bool × Option Nat) :=
  if txFails then Except.error () else Except.ok (checkTx doc)

/-- `checkAndIncrementUsage` (functions/src/index.ts lines 103-138): runs the
transaction; on failure the `catch` block returns `false` (and, the
transaction having committed nothing, the document is unchanged). -/
def checkAndIncrementUsage (txFails : Bool) (doc : Option Nat) :
    Bool × Option Nat :=
  match runUsageTransaction txFails doc with
  | Except.ok r => r
  | Except.error _ => (false, doc)

/-- `n` sequential calls to `checkAndIncrementUsage` with a healthy store,
returning (number of `true` results, final document). -/
def runChecks : Nat → Option Nat → Nat × Option Nat
  | 0, doc => (0, doc)
  | n + 1, doc =>
    let step := checkAndIncrementUsage false doc
    let rest := runChecks n step.2
    ((if step.1 then 1 else 0) + rest.1, rest.2)

/-- Result shape of `getRemainingRequests`. -/
structure RemainingInfo where
  remaining : Int
  total : Nat
  used : Nat
  deriving DecidableEq, Repr

/-- `getRemainingRequests` (functions/src/index.ts lines 141-173), reading the
same counter document: `remaining = Math.max(0, LIMIT - count)`. -/
def getRemainingRequests (doc : Option Nat) : RemainingInfo :=
  let currentCount := docCount doc
  { remaining := max 0 ((DAILY_REQUEST_LIMIT : Int) - currentCount)
    total := DAILY_REQUEST_LIMIT
    used := currentCount }

/-! ## Day-key computation (functions/src/index.ts lines 105-113 and 152-158).
`const today = new Date(); today.setHours(0,0,0,0)` truncates to *local*
midnight (runtime timezone offset `off`, in ms, local = UTC + off), and
`today.toISOString().split('T')[0]` then renders the *UTC* date of that
instant.  We represent the key by its UTC day number. -/

def msPerDay : Int := 86400000

/-- UTC calendar day number containing instant `t`. -/
def utcDayOf (t : Int) : Int := t.fdiv msPerDay

/-- Epoch instant of local midnight of the local day containing `t`,
for runtime UTC offset `off` ms (`setHours(0,0,0,0)` semantics). -/
def localMidnightUtcMs (t off : Int) : Int :=
  (t + off).fdiv msPerDay * msPerDay - off

/-- The usage-counter document key produced at instant `t` under runtime
UTC offset `off`: the UTC day number rendered by `toISOString` of the
local-midnight instant. -/
def dayKeyOf (t off : Int) : Int := utcDayOf (localMidnightUtcMs t off)

/-! ### Quota theorems -/

theorem checkAndIncrementUsage_false_eq (doc : Option Nat) :
    checkAndIncrementUsage false doc =
      if docCount doc ≥ DAILY_REQUEST_LIMIT then (false, doc)
      else (true, some (docCount doc + 1)) := rfl

theorem runChecks_some (n : Nat) : ∀ c : Nat, c ≤ 10 →
    (runChecks n (some c)).1 = min n (10 - c) ∧
    (runChecks n (some c)).2 = some (min (c + n) 10) := by
  induction n with
  | zero =>
    intro c hc
    refine ⟨by simp [runChecks], ?_⟩
    simp only [runChecks]
    exact congrArg some (by omega)
  | succ k ih =>
    intro c hc
    rcases Nat.lt_or_ge c 10 with h | h
    · have hrec := ih (c + 1) (by omega)
      have hstep : checkAndIncrementUsage false (some c) = (true, some (c + 1)) := by
        rw [checkAndIncrementUsage_false_eq]
        rw [if_neg (by simp [docCount, DAILY_REQUEST_LIMIT]; omega)]
        simp [docCount]
      constructor
      · simp only [runChecks, hstep, if_pos]
        rw [hrec.1]
        omega
      · simp only [runChecks, hstep]
        rw [hrec.2]
        exact congrArg some (by omega)
    · have hc10 : c = 10 := by omega
      subst hc10
      have hrec := ih 10 (by omega)
      have hstep : checkAndIncrementUsage false (some 10) = (false, some 10) := by
        rw [checkAndIncrementUsage_false_eq]
        rw [if_pos (by simp [docCount, DAILY_REQUEST_LIMIT])]
      constructor
      · simp only [runChecks, hstep]
        rw [hrec.1]
        simp
      · simp only [runChecks, hstep]
        rw [hrec.2]
        exact congrArg some (by omega)

/-- C1: starting from no counter, `n` sequential calls to
`checkAndIncrementUsage` return `true` exactly `min n 10` times; each `true`
call stores `count + 1` and each `false` call leaves the document unchanged;
afterwards `getRemainingRequests` reports remaining `10 - min n 10`
(clamped at 0), total 10 and used `min n 10`, and reports `used = 0` when no
counter document exists. -/
theorem runChecks_none_count (n : Nat) :
    (runChecks n none).1 = min n 10 ∧ docCount (runChecks n none).2 = min n 10 := by
  cases n with
  | zero => simp [runChecks, docCount]
  | succ k =>
    have hstep : checkAndIncrementUsage false none = (true, some 1) := rfl
    have hrec := runChecks_some k 1 (by omega)
    constructor
    · simp only [runChecks, hstep]
      rw [hrec.1]
      simp
      omega
    · simp only [runChecks, hstep]
      rw [hrec.2]
      simp only [docCount, Option.getD_some]
      omega

/-- C1: starting from no counter, `n` sequential calls to
`checkAndIncrementUsage` return `true` exactly `min n 10` times; each `true`
call stores `count + 1` and each `false` call leaves the document unchanged;
afterwards `getRemainingRequests` reports remaining `10 - min n 10`
(clamped at 0), total 10 and used `min n 10`, and reports `used = 0` when no
counter document exists. -/
theorem c1_quota_sequential_admission (n : Nat) :
    (runChecks n none).1 = min n DAILY_REQUEST_LIMIT
    ∧ (∀ doc : Option Nat, checkAndIncrementUsage false doc =
        if docCount doc ≥ DAILY_REQUEST_LIMIT then (false, doc)
        else (true, some (docCount doc + 1)))
    ∧ (getRemainingRequests (runChecks n none).2).remaining =
        (DAILY_REQUEST_LIMIT : Int) - (min n DAILY_REQUEST_LIMIT : Nat)
    ∧ (getRemainingRequests (runChecks n none).2).total = DAILY_REQUEST_LIMIT
    ∧ (getRemainingRequests (runChecks n none).2).used = min n DAILY_REQUEST_LIMIT
    ∧ (getRemainingRequests none).used = 0
    ∧ (∀ doc : Option Nat, 0 ≤ (getRemainingRequests doc).remaining) := by
  have hrun := runChecks_none_count n
  have hlim : DAILY_REQUEST_LIMIT = 10 := rfl
  refine ⟨by rw [hlim]; exact hrun.1, fun doc => checkAndIncrementUsage_false_eq doc,
    ?_, rfl, ?_, rfl, fun doc => le_max_left 0 _⟩
  · show max 0 ((DAILY_REQUEST_LIMIT : Int) - (docCount (runChecks n none).2 : Nat)) = _
    rw [hlim, hrun.2]
    omega
  · show docCount (runChecks n none).2 = _
    rw [hlim, hrun.2]

/-- C2: when the underlying transaction fails, `checkAndIncrementUsage`
swallows the exception, returns `false`, and the counter document is left
unchanged (fail closed). -/
theorem c2_quota_fail_closed (doc : Option Nat) :
    checkAndIncrementUsage true doc = (false, doc) := rfl

/-! ### Day-key theorems -/

/-- C3 counterexample: at the epoch instant 0 (UTC midnight of day 0) with a
runtime UTC offset of +2 hours, the computed counter key is day −1, not the
current UTC calendar day 0 — the key is *not* independent of the local
timezone in effect where the code runs. -/
theorem c3_day_key_tz_counterexample :
    dayKeyOf 0 7200000 ≠ utcDayOf 0 ∧
    dayKeyOf 0 7200000 = -1 ∧ utcDayOf 0 = 0 := by decide

/-- C3 amended: the key is the UTC date of the *local midnight* of the call
time; when the runtime UTC offset is zero (as in the deployed environment)
it equals the current UTC calendar day, and then calls on different UTC
days use distinct counter documents, so no admitted count carries across
UTC midnight. -/
theorem c3_day_key_utc_when_offset_zero (t u : Int) :
    dayKeyOf t 0 = utcDayOf t ∧
    (utcDayOf t ≠ utcDayOf u → dayKeyOf t 0 ≠ dayKeyOf u 0) := by
  have key : ∀ s : Int, dayKeyOf s 0 = utcDayOf s := by
    intro s
    unfold dayKeyOf localMidnightUtcMs utcDayOf
    rw [add_zero, sub_zero]
    exact Int.mul_fdiv_cancel _ (by norm_num [msPerDay])
  refine ⟨key t, fun hne hk => hne ?_⟩
  rw [← key t, ← key u]
  exact hk

/-! ## Retention policy store (functions/src/config/storageConfig.ts). -/

structure StorageConfig where
  retentionDays : Int
  maxFileSize : Int
  imageQuality : Rat
  maxImageWidth : Int
  cleanupSchedule : String
  enableAutomaticCleanup : Bool
  cleanupBatchSize : Int
  deriving DecidableEq, Repr

def DEFAULT_STORAGE_CONFIG : StorageConfig :=
  { retentionDays := 90
    maxFileSize := 10 * 1024 * 1024
    imageQuality := (9 : Rat) / 10
    maxImageWidth := 1920
    cleanupSchedule := "0 2 * * *"
    enableAutomaticCleanup := true
    cleanupBatchSize := 100 }

def STORAGE_CONFIGS_COST_OPTIMIZED : StorageConfig :=
  { DEFAULT_STORAGE_CONFIG with
    retentionDays := 30
    imageQuality := (8 : Rat) / 10
    maxImageWidth := 1280 }

def STORAGE_CONFIGS_PREMIUM : StorageConfig :=
  { DEFAULT_STORAGE_CONFIG with
    retentionDays := 365
    maxFileSize := 20 * 1024 * 1024
    imageQuality := (95 : Rat) / 100 }

def STORAGE_CONFIGS_DEVELOPMENT : StorageConfig :=
  { DEFAULT_STORAGE_CONFIG with
    retentionDays := 7
    enableAutomaticCleanup := false }

/-- `getStorageConfig(tier = 'default')`: a `none` tier takes the default
parameter; the `switch` sends the three named tiers to their configs and
everything else to `DEFAULT_STORAGE_CONFIG`. -/
def getStorageConfig (tier : Option String) : StorageConfig :=
  match tier.getD "default" with
  | "cost_optimized" => STORAGE_CONFIGS_COST_OPTIMIZED
  | "premium" => STORAGE_CONFIGS_PREMIUM
  | "development" => STORAGE_CONFIGS_DEVELOPMENT
  | _ => DEFAULT_STORAGE_CONFIG

/-- C7: policy resolution is a total function; the three named tiers carry
exactly the documented values, and any unrecognized or absent tier resolves
to the default policy. -/
theorem c7_storage_config_values :
    (getStorageConfig (some "cost_optimized")).retentionDays = 30
    ∧ (getStorageConfig (some "cost_optimized")).imageQuality = (8 : Rat) / 10
    ∧ (getStorageConfig (some "cost_optimized")).maxImageWidth = 1280
    ∧ (getStorageConfig (some "premium")).retentionDays = 365
    ∧ (getStorageConfig (some "premium")).imageQuality = (95 : Rat) / 100
    ∧ (getStorageConfig (some "premium")).maxImageWidth = 1920
    ∧ (getStorageConfig (some "premium")).maxFileSize = 20971520
    ∧ (getStorageConfig (some "development")).retentionDays = 7
    ∧ (getStorageConfig (some "development")).enableAutomaticCleanup = false
    ∧ getStorageConfig none = DEFAULT_STORAGE_CONFIG
    ∧ DEFAULT_STORAGE_CONFIG.retentionDays = 90
    ∧ DEFAULT_STORAGE_CONFIG.imageQuality = (9 : Rat) / 10
    ∧ DEFAULT_STORAGE_CONFIG.maxImageWidth = 1920
    ∧ DEFAULT_STORAGE_CONFIG.maxFileSize = 10485760
    ∧ (∀ s : String, s ≠ "cost_optimized" → s ≠ "premium" → s ≠ "development" →
        getStorageConfig (some s) = DEFAULT_STORAGE_CONFIG) := by
  refine ⟨rfl, rfl, rfl, rfl, rfl, rfl, rfl, rfl, rfl, rfl, rfl, rfl, rfl,
    rfl, ?_⟩
  · intro s h1 h2 h3
    unfold getStorageConfig
    simp only [Option.getD_some]

/-! ## Retention sweeper (storageOptimization.ts: cleanupUserImages,
lines 103-204).  An `Entry` is one document of the user's `entries`
collection as this code reads it: `createdAt` is `none` when the field is
absent or not a timestamp (`data.createdAt?.toDate()` yields nothing),
`imageUrl` is `none` for a null or missing field. -/

structure Entry where
  docId : String
  createdAt : Option Int
  imageUrl : Option String
  deriving DecidableEq, Repr

/-- One element of `filesToDelete` (docId, the truthy imageUrl string,
carried createdAt). -/
structure FileRef where
  docId : String
  imageUrl : String
  createdAt : Option Int
  deriving DecidableEq, Repr

/-- Value of a hexadecimal digit, as `decodeURIComponent` reads `%XX`. -/
def hexDigitVal (c : Char) : Option Nat :=
  if '0' ≤ c ∧ c ≤ '9' then some (c.toNat - '0'.toNat)
  else if 'a' ≤ c ∧ c ≤ 'f' then some (c.toNat - 'a'.toNat + 10)
  else if 'A' ≤ c ∧ c ≤ 'F' then some (c.toNat - 'A'.toNat + 10)
  else none

def percentDecodeAux : List Char → Option (List Char)
  | [] => some []
  | '%' :: c1 :: c2 :: rest =>
    match hexDigitVal c1, hexDigitVal c2 with
    | some h, some l => (percentDecodeAux rest).map (fun cs => Char.ofNat (16 * h + l) :: cs)
    | _, _ => none
  | '%' :: _ => none
  | c :: rest => (percentDecodeAux rest).map (fun cs => c :: cs)

/-- Byte-level model of JS `decodeURIComponent`: each `%XX` hex escape
decodes to the character of that byte value, a `%` not followed by two hex
digits throws (`none`); multi-byte UTF-8 recombination is not modelled (it
never matters for the properties below). -/
def percentDecode (s : String) : Option String :=
  (percentDecodeAux s.data).map List.asString

/-- How the per-record URL parsing can end. -/
inductive ParseOutcome where
  | noPath
  | decodeFailed
  | ok (path : String)
  deriving DecidableEq, Repr

/-- JS `String.prototype.split` with a one-character separator (both
separators the source uses, `'/'` and `'?'`, have length 1): always returns
at least one piece, `"".split` returns `[""]`, adjacent separators produce
empty pieces. -/
def splitOnChar (sep : Char) : List Char → List (List Char)
  | [] => [[]]
  | c :: rest =>
    let r := splitOnChar sep rest
    if c = sep then [] :: r
    else
      match r with
      | [] => [[c]]
      | h :: t => (c :: h) :: t

def jsSplit (s : String) (sep : Char) : List String :=
  (splitOnChar sep s.data).map List.asString

/-- The path extraction of storageOptimization.ts lines 163-169 (identical in
cleanupOldImages.ts lines 51-55): split on `/`, find the segment equal to
`o`, require a following segment, take it up to `?`, percent-decode it. -/
def extractImagePath (url : String) : ParseOutcome :=
  let urlParts := jsSplit url '/'
  let pathStart := match urlParts.findIdx? (fun p => p == "o") with
    | some i => i + 1
    | none => 0
  if 0 < pathStart ∧ pathStart < urlParts.length then
    let encodedPath := (jsSplit (urlParts.getD pathStart "") '?').headD ""
    match percentDecode encodedPath with
    | some p => ParseOutcome.ok p
    | none => ParseOutcome.decodeFailed
  else ParseOutcome.noPath

/-- An attempted mutation of the outside world during a sweep. -/
inductive Effect where
  | storageDelete (path : String)
  | dbClearImage (docId : String)
  deriving DecidableEq, Repr

inductive RecordOutcome where
  | deleted
  | errored
  | skipped
  deriving DecidableEq, Repr

/-- The body of the real-run per-record loop (lines 161-191): parse the URL;
if the parse condition fails, fall through silently; otherwise attempt the
storage delete (`delOk` says whether it throws), and only after it succeeds
attempt the Firestore update nulling `imageUrl` (`updOk` says whether that
throws); any throw lands in the `catch` and counts as an error. -/
def processFile (delOk updOk : String → Bool) (f : FileRef) :
    RecordOutcome × List Effect :=
  match extractImagePath f.imageUrl with
  | ParseOutcome.noPath => (RecordOutcome.skipped, [])
  | ParseOutcome.decodeFailed => (RecordOutcome.errored, [])
  | ParseOutcome.ok path =>
    if delOk path then
      if updOk f.docId then
        (RecordOutcome.deleted, [Effect.storageDelete path, Effect.dbClearImage f.docId])
      else
        (RecordOutcome.errored, [Effect.storageDelete path, Effect.dbClearImage f.docId])
    else
      (RecordOutcome.errored, [Effect.storageDelete path])

def sweepStep (delOk updOk : String → Bool) (acc : Nat × Nat × List Effect)
    (f : FileRef) : Nat × Nat × List Effect :=
  let r := processFile delOk updOk f
  match r.1 with
  | RecordOutcome.deleted => (acc.1 + 1, acc.2.1, acc.2.2 ++ r.2)
  | RecordOutcome.errored => (acc.1, acc.2.1 + 1, acc.2.2 ++ r.2)
  | RecordOutcome.skipped => (acc.1, acc.2.1, acc.2.2 ++ r.2)

/-- The real-run loop: (deletedCount, errorCount, attempted effects). -/
def runSweep (delOk updOk : String → Bool) (files : List FileRef) :
    Nat × Nat × List Effect :=
  files.foldl (sweepStep delOk updOk) (0, 0, [])

/-- `cutoffDate.setDate(cutoffDate.getDate() - retentionDays)` on a UTC
(DST-free) runtime clock: `now` minus whole days. -/
def cutoffFor (now retentionDays : Int) : Int := now - retentionDays * msPerDay

/-- The Firestore query `createdAt < cutoff ∧ imageUrl != null` (a record
with no `createdAt` field is not returned by the range filter; `!= null`
excludes null/missing but keeps any string, empty included). -/
def selectedEntries (entries : List Entry) (cutoff : Int) : List Entry :=
  entries.filter (fun e =>
    (match e.createdAt with
      | some t => decide (t < cutoff)
      | none => false)
    && e.imageUrl.isSome)

/-- The `filesToDelete` array: the loop over the snapshot pushes only records
whose `imageUrl` is truthy (non-empty string). -/
def filesToDelete (entries : List Entry) (cutoff : Int) : List FileRef :=
  (selectedEntries entries cutoff).filterMap (fun e =>
    match e.imageUrl with
    | some url => if url = "" then none else some ⟨e.docId, url, e.createdAt⟩
    | none => none)

inductive CleanupResult where
  | dryRunSummary (filesFound : Nat) (estimatedSpaceSaved : Nat) (cutoffDate : Int)
  | completed (deletedCount : Nat) (errorCount : Nat) (estimatedSpaceSaved : Nat)
  deriving DecidableEq, Repr

/-- `cleanupUserImages` (storageOptimization.ts lines 103-204) for an
authenticated caller: defaults `retentionDays = 90`, `dryRun = true`;
computes the cutoff, collects `filesToDelete`; a dry run returns the summary
without attempting any effect; a real run folds the per-record loop.
`cutoffDate.toISOString()` is represented by the cutoff instant itself. -/
def cleanupUserImages (now : Int) (entries : List Entry)
    (retentionDays : Option Int) (dryRun : Option Bool)
    (delOk updOk : String → Bool) : CleanupResult × List Effect :=
  let r := retentionDays.getD 90
  let dry := dryRun.getD true
  let cutoff := cutoffFor now r
  let files := filesToDelete entries cutoff
  if dry then
    (CleanupResult.dryRunSummary files.length (files.length * (500 * 1024)) cutoff, [])
  else
    let res := runSweep delOk updOk files
    (CleanupResult.completed res.1 res.2.1 (res.1 * (500 * 1024)), res.2.2)

/-! ### Sweeper theorems -/

theorem runSweepAux (delOk updOk : String → Bool) (files : List FileRef) :
    ∀ acc : Nat × Nat × List Effect,
    files.foldl (sweepStep delOk updOk) acc =
      (acc.1 + files.countP
          (fun f => decide ((processFile delOk updOk f).1 = RecordOutcome.deleted)),
       acc.2.1 + files.countP
          (fun f => decide ((processFile delOk updOk f).1 = RecordOutcome.errored)),
       acc.2.2 ++ (files.map (fun f => (processFile delOk updOk f).2)).flatten) := by
  induction files with
  | nil => intro acc; simp
  | cons f rest ih =>
    intro acc
    rw [List.foldl_cons, ih]
    cases hout : (processFile delOk updOk f).1 <;>
      simp [sweepStep, hout, List.countP_cons, List.append_assoc] <;> omega

theorem runSweep_spec (delOk updOk : String → Bool) (files : List FileRef) :
    runSweep delOk updOk files =
      (files.countP
          (fun f => decide ((processFile delOk updOk f).1 = RecordOutcome.deleted)),
       files.countP
          (fun f => decide ((processFile delOk updOk f).1 = RecordOutcome.errored)),
       (files.map (fun f => (processFile delOk updOk f).2)).flatten) := by
  rw [runSweep, runSweepAux]
  simp

theorem processFile_count_pointwise (delOk updOk : String → Bool) (f : FileRef) :
    ((if decide ((processFile delOk updOk f).1 = RecordOutcome.deleted) = true
        then (1 : Nat) else 0)
      + (if decide ((processFile delOk updOk f).1 = RecordOutcome.errored) = true
        then (1 : Nat) else 0))
    = (if decide (extractImagePath f.imageUrl ≠ ParseOutcome.noPath) = true
        then (1 : Nat) else 0) := by
  cases hp : extractImagePath f.imageUrl with
  | noPath => simp [processFile, hp]
  | decodeFailed => simp [processFile, hp]
  | ok p =>
    by_cases hd : delOk p
    · by_cases hu : updOk f.docId
      · simp [processFile, hp, hd, hu]
      · simp [processFile, hp, hd, hu]
    · simp [processFile, hp, hd]

theorem countP_deleted_add_errored (delOk updOk : String → Bool)
    (files : List FileRef) :
    files.countP (fun f => decide ((processFile delOk updOk f).1 = RecordOutcome.deleted))
      + files.countP (fun f => decide ((processFile delOk updOk f).1 = RecordOutcome.errored))
      = files.countP (fun f => decide (extractImagePath f.imageUrl ≠ ParseOutcome.noPath)) := by
  induction files with
  | nil => rfl
  | cons f rest ih =>
    simp only [List.countP_cons]
    have hpt := processFile_count_pointwise delOk updOk f
    omega

theorem filesToDelete_length (entries : List Entry) (cutoff : Int) :
    (filesToDelete entries cutoff).length = entries.countP (fun e =>
      (match e.createdAt with
        | some t => decide (t < cutoff)
        | none => false)
      && (match e.imageUrl with
        | some u => decide (u ≠ "")
        | none => false)) := by
  induction entries with
  | nil => rfl
  | cons e rest ih =>
    simp only [filesToDelete, selectedEntries, List.filter_cons, List.countP_cons] at *
    cases hc : e.createdAt with
    | none => simpa [hc] using ih
    | some t =>
      cases hu : e.imageUrl with
      | none => simpa [hc, hu] using ih
      | some u =>
        by_cases ht : t < cutoff
        · by_cases hue : u = ""
          · simpa [hc, hu, ht, hue, List.filterMap_cons] using ih
          · simpa [hc, hu, ht, hue, List.filterMap_cons] using ih
        · simpa [hc, hu, ht] using ih

/-- C4 counterexample: a real run over one candidate whose reference `"bad"`
has no `o` segment completes with `deletedCount = 0` and `errorCount = 0`
while the candidate count is 1: the unparsable record is *not* counted in
`errorCount` and the counts do not sum to the number of candidates. -/
theorem c4_unparsable_not_counted_counterexample :
    (cleanupUserImages (100 * 86400000) [⟨"d1", some 0, some "bad"⟩] (some 1)
        (some false) (fun _ => true) (fun _ => true)).1
      = CleanupResult.completed 0 0 0
    ∧ (filesToDelete [⟨"d1", some 0, some "bad"⟩]
        (cutoffFor (100 * 86400000) 1)).length ≠ 0 + 0 := by
  exact ⟨by decide, by decide⟩

/-- C4 amended: in a real sweep a selected record whose reference fails the
parse condition (no `o` segment with a following component) is skipped
*silently* — counted in neither `deletedCount` nor `errorCount` — and does
not abort the batch; `deletedCount + errorCount` equals the number of
candidates whose reference passes the parse condition (a record whose
escape sequence fails to decode does count as an error). -/
theorem c4_unparsable_skipped_silently (now : Int) (entries : List Entry)
    (rd : Option Int) (delOk updOk : String → Bool) :
    (∀ f : FileRef, extractImagePath f.imageUrl = ParseOutcome.noPath →
        processFile delOk updOk f = (RecordOutcome.skipped, []))
    ∧ (cleanupUserImages now entries rd (some false) delOk updOk).1 =
        CleanupResult.completed
          ((filesToDelete entries (cutoffFor now (rd.getD 90))).countP
            (fun f => decide ((processFile delOk updOk f).1 = RecordOutcome.deleted)))
          ((filesToDelete entries (cutoffFor now (rd.getD 90))).countP
            (fun f => decide ((processFile delOk updOk f).1 = RecordOutcome.errored)))
          (((filesToDelete entries (cutoffFor now (rd.getD 90))).countP
            (fun f => decide ((processFile delOk updOk f).1 = RecordOutcome.deleted)))
            * (500 * 1024))
    ∧ ((filesToDelete entries (cutoffFor now (rd.getD 90))).countP
          (fun f => decide ((processFile delOk updOk f).1 = RecordOutcome.deleted)))
        + ((filesToDelete entries (cutoffFor now (rd.getD 90))).countP
          (fun f => decide ((processFile delOk updOk f).1 = RecordOutcome.errored)))
        = (filesToDelete entries (cutoffFor now (rd.getD 90))).countP
            (fun f => decide (extractImagePath f.imageUrl ≠ ParseOutcome.noPath)) := by
  refine ⟨fun f h => by simp [processFile, h], ?_,
    countP_deleted_add_errored delOk updOk _⟩
  show (let res := runSweep delOk updOk (filesToDelete entries (cutoffFor now (rd.getD 90)));
    (CleanupResult.completed res.1 res.2.1 (res.1 * (500 * 1024)),
      res.2.2)).1 = _
  rw [runSweep_spec]

/-- C5: in a real sweep, a record whose storage delete throws does not get
its Firestore update (the reference is cleared only after a successful
delete); it counts as an error, and the batch result is a record-by-record
fold, so later records are still processed. -/
theorem c5_delete_failure_no_db_update (now : Int) (entries : List Entry)
    (rd : Option Int) (delOk updOk : String → Bool) (f : FileRef) (p : String)
    (hp : extractImagePath f.imageUrl = ParseOutcome.ok p)
    (hd : delOk p = false) :
    processFile delOk updOk f = (RecordOutcome.errored, [Effect.storageDelete p])
    ∧ Effect.dbClearImage f.docId ∉ (processFile delOk updOk f).2
    ∧ (cleanupUserImages now entries rd (some false) delOk updOk).1 =
        CleanupResult.completed
          ((filesToDelete entries (cutoffFor now (rd.getD 90))).countP
            (fun g => decide ((processFile delOk updOk g).1 = RecordOutcome.deleted)))
          ((filesToDelete entries (cutoffFor now (rd.getD 90))).countP
            (fun g => decide ((processFile delOk updOk g).1 = RecordOutcome.errored)))
          (((filesToDelete entries (cutoffFor now (rd.getD 90))).countP
            (fun g => decide ((processFile delOk updOk g).1 = RecordOutcome.deleted)))
            * (500 * 1024))
    ∧ (cleanupUserImages now entries rd (some false) delOk updOk).2 =
        ((filesToDelete entries (cutoffFor now (rd.getD 90))).map
          (fun g => (processFile delOk updOk g).2)).flatten := by
  have hpf : processFile delOk updOk f = (RecordOutcome.errored, [Effect.storageDelete p]) := by
    simp [processFile, hp, hd]
  refine ⟨hpf, by simp [hpf], ?_, ?_⟩
  · show (let res := runSweep delOk updOk (filesToDelete entries (cutoffFor now (rd.getD 90)));
      (CleanupResult.completed res.1 res.2.1 (res.1 * (500 * 1024)),
        res.2.2)).1 = _
    rw [runSweep_spec]
  · show (let res := runSweep delOk updOk (filesToDelete entries (cutoffFor now (rd.getD 90)));
      (CleanupResult.completed res.1 res.2.1 (res.1 * (500 * 1024)),
        res.2.2)).2 = _
    rw [runSweep_spec]

/-- C5 witness: one candidate whose URL parses to path `"b"` while every
storage delete throws — the record ends errored with only the delete
attempted, and the run completes with `deletedCount = 0`, `errorCount = 1`. -/
theorem c5_delete_failure_witness :
    processFile (fun _ => false) (fun _ => true) ⟨"d1", "a/o/b?x", some 0⟩
      = (RecordOutcome.errored, [Effect.storageDelete "b"])
    ∧ Effect.dbClearImage "d1" ∉
        (processFile (fun _ => false) (fun _ => true) ⟨"d1", "a/o/b?x", some 0⟩).2
    ∧ (cleanupUserImages (100 * 86400000) [⟨"d1", some 0, some "a/o/b?x"⟩]
        (some 1) (some false) (fun _ => false) (fun _ => true)).1
      = CleanupResult.completed 0 1 0 := by
  have h := c5_delete_failure_no_db_update (100 * 86400000)
    [⟨"d1", some 0, some "a/o/b?x"⟩] (some 1) (fun _ => false) (fun _ => true)
    ⟨"d1", "a/o/b?x", some 0⟩ "b" (by decide) rfl
  exact ⟨h.1, h.2.1, by decide⟩

/-- C6 counterexample: a record whose `imageUrl` is the empty string is
selected by the `!= null` query (it is non-null) but dropped by the truthy
`if (imageUrl)` check, so a default dry run reports `filesFound = 0` while
the claim's count of selected records is 1. -/
theorem c6_dryrun_filesfound_counterexample :
    (cleanupUserImages (100 * 86400000) [⟨"d1", some 0, some ""⟩] none none
        (fun _ => true) (fun _ => true)).1
      = CleanupResult.dryRunSummary 0 0 (cutoffFor (100 * 86400000) 90)
    ∧ (selectedEntries [⟨"d1", some 0, some ""⟩]
        (cutoffFor (100 * 86400000) 90)).length ≠ 0 := by
  exact ⟨by decide, by decide⟩

/-- C6 amended: `retentionDays` defaults to 90 and `dryRun` to true; a dry
run attempts no storage deletion and no database write and returns
`action: dry-run` with `filesFound` = the number of records created strictly
before the cutoff whose image reference is non-null *and non-empty*,
`estimatedSpaceSaved = filesFound × 500 KiB` and the cutoff date; a real run
returns `action: cleanup-completed` with `deletedCount`, `errorCount` and
`estimatedSpaceSaved = deletedCount × 500 KiB`. -/
theorem c6_defaults_and_dryrun (now : Int) (entries : List Entry)
    (rd : Option Int) (dr : Option Bool) (delOk updOk : String → Bool) :
    cleanupUserImages now entries none dr delOk updOk
      = cleanupUserImages now entries (some 90) dr delOk updOk
    ∧ cleanupUserImages now entries rd none delOk updOk
      = cleanupUserImages now entries rd (some true) delOk updOk
    ∧ cleanupUserImages now entries rd (some true) delOk updOk
      = (CleanupResult.dryRunSummary
          (filesToDelete entries (cutoffFor now (rd.getD 90))).length
          ((filesToDelete entries (cutoffFor now (rd.getD 90))).length * (500 * 1024))
          (cutoffFor now (rd.getD 90)), [])
    ∧ (filesToDelete entries (cutoffFor now (rd.getD 90))).length
        = entries.countP (fun e =>
            (match e.createdAt with
              | some t => decide (t < cutoffFor now (rd.getD 90))
              | none => false)
            && (match e.imageUrl with
              | some u => decide (u ≠ "")
              | none => false))
    ∧ (cleanupUserImages now entries rd (some false) delOk updOk).1
        = CleanupResult.completed
            (runSweep delOk updOk (filesToDelete entries (cutoffFor now (rd.getD 90)))).1
            (runSweep delOk updOk (filesToDelete entries (cutoffFor now (rd.getD 90)))).2.1
            ((runSweep delOk updOk (filesToDelete entries (cutoffFor now (rd.getD 90)))).1
              * (500 * 1024)) := by
  exact ⟨rfl, rfl, rfl, filesToDelete_length entries _, rfl⟩

/-- C10: `cleanupUserImages` applies no validation to `retentionDays`: for
any `retentionDays ≤ 0` the cutoff lies at or after the call time, so every
record with a truthy image reference and any past creation timestamp is a
deletion candidate, and a real run (when every reference parses and every
operation succeeds) deletes all of them — clearing each record's image
reference. -/
theorem c10_no_retention_clamp (now r : Int) (entries : List Entry)
    (delOk updOk : String → Bool) (hr : r ≤ 0)
    (hparse : ∀ f ∈ filesToDelete entries (cutoffFor now r),
        ∃ p, extractImagePath f.imageUrl = ParseOutcome.ok p ∧ delOk p = true)
    (hupd : ∀ f ∈ filesToDelete entries (cutoffFor now r), updOk f.docId = true) :
    now ≤ cutoffFor now r
    ∧ (∀ e ∈ entries, ∀ t : Int, e.createdAt = some t → t < now →
        ∀ u : String, e.imageUrl = some u → u ≠ "" →
          FileRef.mk e.docId u e.createdAt ∈ filesToDelete entries (cutoffFor now r))
    ∧ (cleanupUserImages now entries (some r) (some false) delOk updOk).1 =
        CleanupResult.completed (filesToDelete entries (cutoffFor now r)).length 0
          ((filesToDelete entries (cutoffFor now r)).length * (500 * 1024))
    ∧ (∀ f ∈ filesToDelete entries (cutoffFor now r),
        Effect.dbClearImage f.docId ∈
          (cleanupUserImages now entries (some r) (some false) delOk updOk).2) := by
  have hcut : now ≤ cutoffFor now r := by
    have hd : (0 : Int) ≤ msPerDay := by norm_num [msPerDay]
    have h1 : r * msPerDay ≤ 0 := mul_nonpos_iff.mpr (Or.inr ⟨hr, hd⟩)
    unfold cutoffFor
    linarith
  refine ⟨hcut, ?_, ?_, ?_⟩
  · intro e he t hct htn u hu hne
    unfold filesToDelete
    refine List.mem_filterMap.mpr ⟨e, ?_, ?_⟩
    · refine List.mem_filter.mpr ⟨he, ?_⟩
      rw [hct, hu]
      simp only [Option.isSome_some, Bool.and_true]
      exact decide_eq_true (lt_of_lt_of_le htn hcut)
    · rw [hu]
      simp [hne]
  · show (let res := runSweep delOk updOk (filesToDelete entries (cutoffFor now r));
      (CleanupResult.completed res.1 res.2.1 (res.1 * (500 * 1024)),
        res.2.2)).1 = _
    rw [runSweep_spec]
    have hdel : (filesToDelete entries (cutoffFor now r)).countP
        (fun f => decide ((processFile delOk updOk f).1 = RecordOutcome.deleted))
        = (filesToDelete entries (cutoffFor now r)).length := by
      refine List.countP_eq_length.mpr fun f hf => ?_
      obtain ⟨p, hp, hdel⟩ := hparse f hf
      simp [processFile, hp, hdel, hupd f hf]
    have herr : (filesToDelete entries (cutoffFor now r)).countP
        (fun f => decide ((processFile delOk updOk f).1 = RecordOutcome.errored))
        = 0 := by
      refine List.countP_eq_zero.mpr fun f hf => ?_
      obtain ⟨p, hp, hdel⟩ := hparse f hf
      simp [processFile, hp, hdel, hupd f hf]
    rw [hdel, herr]
  · intro f hf
    obtain ⟨p, hp, hdel⟩ := hparse f hf
    show Effect.dbClearImage f.docId ∈
      (let res := runSweep delOk updOk (filesToDelete entries (cutoffFor now r));
        (CleanupResult.completed res.1 res.2.1 (res.1 * (500 * 1024)),
          res.2.2)).2
    rw [runSweep_spec]
    refine List.mem_flatten.mpr ⟨(processFile delOk updOk f).2, List.mem_map_of_mem _ hf, ?_⟩
    simp [processFile, hp, hdel, hupd f hf]

/-- C10 witness: with `retentionDays = 0` (not positive, unvalidated) a real
run over one image-bearing record created in the past deletes it and clears
its reference. -/
theorem c10_no_retention_clamp_witness :
    (8640000000 : Int) ≤ cutoffFor 8640000000 0
    ∧ FileRef.mk "e1" "a/o/b?x" (some 0) ∈
        filesToDelete [⟨"e1", some 0, some "a/o/b?x"⟩] (cutoffFor 8640000000 0)
    ∧ (cleanupUserImages 8640000000 [⟨"e1", some 0, some "a/o/b?x"⟩] (some 0)
        (some false) (fun _ => true) (fun _ => true)).1
      = CleanupResult.completed 1 0 (1 * (500 * 1024))
    ∧ Effect.dbClearImage "e1" ∈
        (cleanupUserImages 8640000000 [⟨"e1", some 0, some "a/o/b?x"⟩] (some 0)
          (some false) (fun _ => true) (fun _ => true)).2 := by
  have hfiles : filesToDelete [⟨"e1", some 0, some "a/o/b?x"⟩] (cutoffFor 8640000000 0)
      = [FileRef.mk "e1" "a/o/b?x" (some 0)] := by decide
  have h := c10_no_retention_clamp 8640000000 0 [⟨"e1", some 0, some "a/o/b?x"⟩]
    (fun _ => true) (fun _ => true) (by decide)
    (by intro f hf; rw [hfiles, List.mem_singleton] at hf; subst hf
        exact ⟨"b", by decide, rfl⟩)
    (by intro f hf; rfl)
  refine ⟨h.1, ?_, by decide, by decide⟩
  exact h.2.1 ⟨"e1", some 0, some "a/o/b?x"⟩ (by decide) 0 rfl (by decide)
    "a/o/b?x" rfl (by decide)

/-! ## Tier preference manager (storageOptimization.ts: setStoragePreferences,
calculateEstimatedCost). -/

/-- The persisted `storagePreferences` object. -/
structure StoragePreferences where
  storageTier : String
  retentionDays : Int
  imageQuality : Rat
  maxImageWidth : Int
  updatedAt : Int
  deriving DecidableEq, Repr

/-- The user document: its `storagePreferences` field plus an opaque stand-in
for every unrelated field (`update` with a single key must not touch them). -/
structure UserDoc where
  storagePreferences : Option StoragePreferences
  otherFields : String
  deriving DecidableEq, Repr

/-- `calculateEstimatedCost` (storageOptimization.ts lines 285-294):
5 images/day × 500 KiB for `retentionDays` days, priced at $0.026/GiB/month. -/
def calculateEstimatedCost (retentionDays : Int) : Rat :=
  let imagesPerDay : Rat := 5
  let averageImageSize : Rat := 500 * 1024
  let totalImages : Rat := imagesPerDay * retentionDays
  let totalSizeGB : Rat := totalImages * averageImageSize / (1024 * 1024 * 1024)
  totalSizeGB * ((26 : Rat) / 1000)

/-- `setStoragePreferences` (storageOptimization.ts lines 238-283): resolves
the tier's config, builds the preference object (`tier || 'default'`,
`customRetentionDays || config.retentionDays` — JS truthiness, so any
*nonzero* value wins), writes it onto the user document with
`update({storagePreferences})` (other fields untouched), and returns the
preference together with the projected monthly cost. -/
def setStoragePreferences (now : Int) (tier : Option String)
    (customRetentionDays : Option Int) (userDoc : UserDoc) :
    StoragePreferences × Rat × UserDoc :=
  let config := getStorageConfig tier
  let prefs : StoragePreferences :=
    { storageTier := match tier with
        | some t => if t = "" then "default" else t
        | none => "default"
      retentionDays := match customRetentionDays with
        | some c => if c = 0 then config.retentionDays else c
        | none => config.retentionDays
      imageQuality := config.imageQuality
      maxImageWidth := config.maxImageWidth
      updatedAt := now }
  (prefs, calculateEstimatedCost prefs.retentionDays,
    { userDoc with storagePreferences := some prefs })

/-- C8 counterexample: with `customRetentionDays = -5` (provided but *not*
positive) the persisted retention days are −5, not the resolved tier's 90 as
the claim requires — `customRetentionDays || config.retentionDays` lets any
nonzero value through, negatives included. -/
theorem c8_negative_retention_counterexample :
    (setStoragePreferences 0 none (some (-5)) ⟨none, "unrelated"⟩).1.retentionDays
      ≠ (getStorageConfig none).retentionDays
    ∧ (setStoragePreferences 0 none (some (-5)) ⟨none, "unrelated"⟩).1.retentionDays
      = -5 := by
  constructor
  · decide
  · rfl

/-- C8 amended: the persisted retention days equal `customRetentionDays`
whenever it is provided and *nonzero* (JS truthiness — negatives included),
and otherwise the resolved tier's retention days; the rest of the claim is as
stated: the preference (tier name, resolved quality and width, timestamp) is
written onto the user's record without touching unrelated fields, and the
returned `estimatedMonthlyCost` is (5 images/day × retentionDays × 500 KiB)
/ 2³⁰ GiB × $0.026 — the same $0.026/GiB/month rate as the Analyzer. -/
theorem c8_preferences_persisted (now : Int) (tier : Option String)
    (customRetentionDays : Option Int) (userDoc : UserDoc) :
    (setStoragePreferences now tier customRetentionDays userDoc).1.retentionDays =
      (match customRetentionDays with
        | some c => if c = 0 then (getStorageConfig tier).retentionDays else c
        | none => (getStorageConfig tier).retentionDays)
    ∧ (setStoragePreferences now tier customRetentionDays userDoc).1.storageTier =
      (match tier with
        | some t => if t = "" then "default" else t
        | none => "default")
    ∧ (setStoragePreferences now tier customRetentionDays userDoc).1.imageQuality =
      (getStorageConfig tier).imageQuality
    ∧ (setStoragePreferences now tier customRetentionDays userDoc).1.maxImageWidth =
      (getStorageConfig tier).maxImageWidth
    ∧ (setStoragePreferences now tier customRetentionDays userDoc).1.updatedAt = now
    ∧ (setStoragePreferences now tier customRetentionDays userDoc).2.2.storagePreferences =
      some (setStoragePreferences now tier customRetentionDays userDoc).1
    ∧ (setStoragePreferences now tier customRetentionDays userDoc).2.2.otherFields =
      userDoc.otherFields
    ∧ (setStoragePreferences now tier customRetentionDays userDoc).2.1 =
      calculateEstimatedCost
        (setStoragePreferences now tier customRetentionDays userDoc).1.retentionDays
    ∧ (∀ rd : Int, calculateEstimatedCost rd =
        (5 * (rd : Rat) * (500 * 1024)) / (2 ^ 30) * ((26 : Rat) / 1000)) := by
  refine ⟨rfl, rfl, rfl, rfl, rfl, rfl, rfl, rfl, fun rd => ?_⟩
  unfold calculateEstimatedCost
  norm_num

/-! ## Storage usage analyzer (storageOptimization.ts: getStorageUsage lines
21-100, generateStorageRecommendations lines 206-235).  `filesByAge` is
flattened into the stats record. -/

structure StorageUsageStats where
  totalFiles : Nat
  totalSizeBytes : Nat
  oldestFileDate : Option Int
  newestFileDate : Option Int
  last30Days : Nat
  last90Days : Nat
  last365Days : Nat
  older : Nat
  deriving DecidableEq, Repr

def emptyStats : StorageUsageStats :=
  { totalFiles := 0
    totalSizeBytes := 0
    oldestFileDate := none
    newestFileDate := none
    last30Days := 0
    last90Days := 0
    last365Days := 0
    older := 0 }

/-- `if (!stats.oldestFileDate || createdAt < stats.oldestFileDate)` update. -/
def optMinStep (a : Option Int) (t : Int) : Option Int :=
  match a with
  | none => some t
  | some o => if t < o then some t else some o

/-- `if (!stats.newestFileDate || createdAt > stats.newestFileDate)` update. -/
def optMaxStep (a : Option Int) (t : Int) : Option Int :=
  match a with
  | none => some t
  | some o => if o < t then some t else some o

/-- The loop body of `getStorageUsage` (lines 59-85): a record whose
`createdAt` does not resolve is skipped entirely; otherwise count it, update
oldest/newest, and bucket it by the three age boundaries. -/
def statsStep (now : Int) (s : StorageUsageStats) (e : Entry) : StorageUsageStats :=
  match e.createdAt with
  | none => s
  | some createdAt =>
    let s1 := { s with totalFiles := s.totalFiles + 1 }
    let s2 := { s1 with oldestFileDate := optMinStep s1.oldestFileDate createdAt }
    let s3 := { s2 with newestFileDate := optMaxStep s2.newestFileDate createdAt }
    if now - 30 * msPerDay ≤ createdAt then
      { s3 with last30Days := s3.last30Days + 1 }
    else if now - 90 * msPerDay ≤ createdAt then
      { s3 with last90Days := s3.last90Days + 1 }
    else if now - 365 * msPerDay ≤ createdAt then
      { s3 with last365Days := s3.last365Days + 1 }
    else
      { s3 with older := s3.older + 1 }

/-- One recommendation string, abstracted to its constructor and the numbers
interpolated into it. -/
inductive Recommendation where
  | deleteOldImages (olderCount : Nat)
  | scheduleAutomaticCleanup
  | highMonthlyCost (costCents : Int)
  | reduceImageQuality
  deriving DecidableEq, Repr

/-- JS `toFixed(2)` of a nonnegative amount, as a count of cents: round to
the nearest hundredth, ties upward. -/
def toFixedCents (q : Rat) : Int := (q * 100 + 1 / 2).floor

/-- `generateStorageRecommendations`: four independent, order-preserving
rules, each contributing one entry or nothing. -/
def generateStorageRecommendations (stats : StorageUsageStats) : List Recommendation :=
  let estimatedMonthlyCost : Rat :=
    ((stats.totalSizeBytes : Rat) / (1024 * 1024 * 1024)) * ((26 : Rat) / 1000)
  (if 0 < stats.older then [Recommendation.deleteOldImages stats.older] else [])
  ++ (if 100 < stats.last365Days then [Recommendation.scheduleAutomaticCleanup] else [])
  ++ (if 5 < estimatedMonthlyCost then
      [Recommendation.highMonthlyCost (toFixedCents estimatedMonthlyCost)] else [])
  ++ (if 1000 < stats.totalFiles then [Recommendation.reduceImageQuality] else [])

/-- `getStorageUsage` for an authenticated caller: query the image-bearing
records (`imageUrl != null`), fold the stats loop, then overwrite
`totalSizeBytes` with `totalFiles × 500 KiB`. -/
def getStorageUsage (now : Int) (entries : List Entry) :
    StorageUsageStats × List Recommendation :=
  let imageDocs := entries.filter (fun e => e.imageUrl.isSome)
  let stats0 := imageDocs.foldl (statsStep now) emptyStats
  let stats := { stats0 with totalSizeBytes := stats0.totalFiles * (500 * 1024) }
  (stats, generateStorageRecommendations stats)

/-! ### Analyzer theorems -/

theorem statsStep_proj (now : Int) (s : StorageUsageStats) (e : Entry) (t : Int)
    (hc : e.createdAt = some t) :
    (statsStep now s e).totalFiles = s.totalFiles + 1
    ∧ (statsStep now s e).totalSizeBytes = s.totalSizeBytes
    ∧ (statsStep now s e).last30Days = s.last30Days
        + (if decide (now - 30 * msPerDay ≤ t) = true then 1 else 0)
    ∧ (statsStep now s e).last90Days = s.last90Days
        + (if (!decide (now - 30 * msPerDay ≤ t)
              && decide (now - 90 * msPerDay ≤ t)) = true then 1 else 0)
    ∧ (statsStep now s e).last365Days = s.last365Days
        + (if (!decide (now - 30 * msPerDay ≤ t)
              && !decide (now - 90 * msPerDay ≤ t)
              && decide (now - 365 * msPerDay ≤ t)) = true then 1 else 0)
    ∧ (statsStep now s e).older = s.older
        + (if (!decide (now - 30 * msPerDay ≤ t)
              && !decide (now - 90 * msPerDay ≤ t)
              && !decide (now - 365 * msPerDay ≤ t)) = true then 1 else 0)
    ∧ (statsStep now s e).oldestFileDate = optMinStep s.oldestFileDate t
    ∧ (statsStep now s e).newestFileDate = optMaxStep s.newestFileDate t := by
  by_cases h1 : now - 30 * msPerDay ≤ t
  · simp [statsStep, hc, h1]
  · by_cases h2 : now - 90 * msPerDay ≤ t
    · simp [statsStep, hc, h1, h2]
    · by_cases h3 : now - 365 * msPerDay ≤ t
      · simp [statsStep, hc, h1, h2, h3]
      · simp [statsStep, hc, h1, h2, h3]

theorem statsFold (now : Int) : ∀ (l : List Entry) (s : StorageUsageStats),
    (l.foldl (statsStep now) s).totalFiles
      = s.totalFiles + (l.filterMap Entry.createdAt).length
    ∧ (l.foldl (statsStep now) s).totalSizeBytes = s.totalSizeBytes
    ∧ (l.foldl (statsStep now) s).last30Days = s.last30Days
        + (l.filterMap Entry.createdAt).countP
            (fun t => decide (now - 30 * msPerDay ≤ t))
    ∧ (l.foldl (statsStep now) s).last90Days = s.last90Days
        + (l.filterMap Entry.createdAt).countP
            (fun t => !decide (now - 30 * msPerDay ≤ t)
              && decide (now - 90 * msPerDay ≤ t))
    ∧ (l.foldl (statsStep now) s).last365Days = s.last365Days
        + (l.filterMap Entry.createdAt).countP
            (fun t => !decide (now - 30 * msPerDay ≤ t)
              && !decide (now - 90 * msPerDay ≤ t)
              && decide (now - 365 * msPerDay ≤ t))
    ∧ (l.foldl (statsStep now) s).older = s.older
        + (l.filterMap Entry.createdAt).countP
            (fun t => !decide (now - 30 * msPerDay ≤ t)
              && !decide (now - 90 * msPerDay ≤ t)
              && !decide (now - 365 * msPerDay ≤ t))
    ∧ (l.foldl (statsStep now) s).oldestFileDate
        = (l.filterMap Entry.createdAt).foldl optMinStep s.oldestFileDate
    ∧ (l.foldl (statsStep now) s).newestFileDate
        = (l.filterMap Entry.createdAt).foldl optMaxStep s.newestFileDate := by
  intro l
  induction l with
  | nil => intro s; simp
  | cons e rest ih =>
    intro s
    cases hc : e.createdAt with
    | none =>
      have hstep : statsStep now s e = s := by simp [statsStep, hc]
      simp only [List.foldl_cons, List.filterMap_cons, hc, hstep]
      exact ih s
    | some t =>
      have hp := statsStep_proj now s e t hc
      have h := ih (statsStep now s e)
      simp only [List.foldl_cons, List.filterMap_cons, hc, List.countP_cons,
        List.length_cons]
      refine ⟨?_, ?_, ?_, ?_, ?_, ?_, ?_, ?_⟩
      · rw [h.1, hp.1]; omega
      · rw [h.2.1, hp.2.1]
      · rw [h.2.2.1, hp.2.2.1]; omega
      · rw [h.2.2.2.1, hp.2.2.2.1]; omega
      · rw [h.2.2.2.2.1, hp.2.2.2.2.1]; omega
      · rw [h.2.2.2.2.2.1, hp.2.2.2.2.2.1]; omega
      · rw [h.2.2.2.2.2.2.1, hp.2.2.2.2.2.2.1]
      · rw [h.2.2.2.2.2.2.2, hp.2.2.2.2.2.2.2]

theorem foldl_optMinStep_some : ∀ (ts : List Int) (a : Int),
    ts.foldl optMinStep (some a) = some (ts.foldl min a) := by
  intro ts
  induction ts with
  | nil => intro a; rfl
  | cons t rest ih =>
    intro a
    have hmin : optMinStep (some a) t = some (min a t) := by
      rcases lt_or_ge t a with h | h
      · rw [optMinStep, if_pos h, min_eq_right (le_of_lt h)]
      · rw [optMinStep, if_neg (not_lt.mpr h), min_eq_left h]
    rw [List.foldl_cons, hmin, ih, List.foldl_cons]

theorem foldl_min_bounds : ∀ (ts : List Int) (a : Int),
    ts.foldl min a ≤ a ∧ (∀ t ∈ ts, ts.foldl min a ≤ t)
    ∧ (ts.foldl min a = a ∨ ts.foldl min a ∈ ts) := by
  intro ts
  induction ts with
  | nil => intro a; exact ⟨le_refl a, by simp, Or.inl rfl⟩
  | cons t rest ih =>
    intro a
    have h := ih (min a t)
    rw [List.foldl_cons]
    refine ⟨le_trans h.1 (min_le_left a t), ?_, ?_⟩
    · intro u hu
      rcases List.mem_cons.mp hu with h' | h'
      · rw [h']
        exact le_trans h.1 (min_le_right a t)
      · exact h.2.1 u h'
    · rcases h.2.2 with h' | h'
      · rcases min_choice a t with hm | hm
        · exact Or.inl (h'.trans hm)
        · exact Or.inr (List.mem_cons.mpr (Or.inl (h'.trans hm)))
      · exact Or.inr (List.mem_cons.mpr (Or.inr h'))

theorem foldl_optMaxStep_some : ∀ (ts : List Int) (a : Int),
    ts.foldl optMaxStep (some a) = some (ts.foldl max a) := by
  intro ts
  induction ts with
  | nil => intro a; rfl
  | cons t rest ih =>
    intro a
    have hmax : optMaxStep (some a) t = some (max a t) := by
      rcases lt_or_ge a t with h | h
      · rw [optMaxStep, if_pos h, max_eq_right (le_of_lt h)]
      · rw [optMaxStep, if_neg (not_lt.mpr h), max_eq_left h]
    rw [List.foldl_cons, hmax, ih, List.foldl_cons]

theorem foldl_max_bounds : ∀ (ts : List Int) (a : Int),
    a ≤ ts.foldl max a ∧ (∀ t ∈ ts, t ≤ ts.foldl max a)
    ∧ (ts.foldl max a = a ∨ ts.foldl max a ∈ ts) := by
  intro ts
  induction ts with
  | nil => intro a; exact ⟨le_refl a, by simp, Or.inl rfl⟩
  | cons t rest ih =>
    intro a
    have h := ih (max a t)
    rw [List.foldl_cons]
    refine ⟨le_trans (le_max_left a t) h.1, ?_, ?_⟩
    · intro u hu
      rcases List.mem_cons.mp hu with h' | h'
      · rw [h']
        exact le_trans (le_max_right a t) h.1
      · exact h.2.1 u h'
    · rcases h.2.2 with h' | h'
      · rcases max_choice a t with hm | hm
        · exact Or.inl (h'.trans hm)
        · exact Or.inr (List.mem_cons.mpr (Or.inl (h'.trans hm)))
      · exact Or.inr (List.mem_cons.mpr (Or.inr h'))

theorem foldl_optMinStep_none_spec (ts : List Int) :
    (ts.foldl optMinStep none = none ↔ ts = [])
    ∧ (∀ m : Int, ts.foldl optMinStep none = some m →
        m ∈ ts ∧ ∀ t ∈ ts, m ≤ t) := by
  cases ts with
  | nil => exact ⟨by simp, fun m h => by simp [List.foldl] at h⟩
  | cons t rest =>
    have h1 : (t :: rest).foldl optMinStep none = some (rest.foldl min t) := by
      rw [List.foldl_cons]
      exact foldl_optMinStep_some rest t
    constructor
    · rw [h1]; simp
    · intro m hm
      rw [h1] at hm
      have hb := foldl_min_bounds rest t
      have hmv : m = rest.foldl min t := (Option.some.inj hm).symm
      subst hmv
      refine ⟨?_, ?_⟩
      · rcases hb.2.2 with h' | h'
        · exact List.mem_cons.mpr (Or.inl h')
        · exact List.mem_cons.mpr (Or.inr h')
      · intro u hu
        rcases List.mem_cons.mp hu with h' | h'
        · exact h' ▸ hb.1
        · exact hb.2.1 u h'

theorem foldl_optMaxStep_none_spec (ts : List Int) :
    (ts.foldl optMaxStep none = none ↔ ts = [])
    ∧ (∀ m : Int, ts.foldl optMaxStep none = some m →
        m ∈ ts ∧ ∀ t ∈ ts, t ≤ m) := by
  cases ts with
  | nil => exact ⟨by simp, fun m h => by simp [List.foldl] at h⟩
  | cons t rest =>
    have h1 : (t :: rest).foldl optMaxStep none = some (rest.foldl max t) := by
      rw [List.foldl_cons]
      exact foldl_optMaxStep_some rest t
    constructor
    · rw [h1]; simp
    · intro m hm
      rw [h1] at hm
      have hb := foldl_max_bounds rest t
      have hmv : m = rest.foldl max t := (Option.some.inj hm).symm
      subst hmv
      refine ⟨?_, ?_⟩
      · rcases hb.2.2 with h' | h'
        · exact List.mem_cons.mpr (Or.inl h')
        · exact List.mem_cons.mpr (Or.inr h')
      · intro u hu
        rcases List.mem_cons.mp hu with h' | h'
        · exact h' ▸ hb.1
        · exact hb.2.1 u h'

/-- C9: `getStorageUsage` counts exactly the image-bearing records with a
resolvable creation timestamp; it buckets them by the 30/90/365-day
boundaries before the call time, tracks the oldest and newest counted
timestamps, sets `totalSizeBytes = count × 500 KiB`, and produces
recommendations by four independent order-preserving rules (old-images,
automatic-cleanup above 100, monthly cost above $5.00 with the rounded
dollar figure, reduce-quality above 1000), a failing rule producing
nothing. -/
theorem c9_storage_usage_stats (now : Int) (entries : List Entry) :
    (getStorageUsage now entries).1.totalFiles
      = ((entries.filter (fun e => e.imageUrl.isSome)).filterMap Entry.createdAt).length
    ∧ (getStorageUsage now entries).1.totalSizeBytes
      = ((entries.filter (fun e => e.imageUrl.isSome)).filterMap Entry.createdAt).length
          * (500 * 1024)
    ∧ (getStorageUsage now entries).1.last30Days
      = ((entries.filter (fun e => e.imageUrl.isSome)).filterMap Entry.createdAt).countP
          (fun t => decide (now - 30 * msPerDay ≤ t))
    ∧ (getStorageUsage now entries).1.last90Days
      = ((entries.filter (fun e => e.imageUrl.isSome)).filterMap Entry.createdAt).countP
          (fun t => !decide (now - 30 * msPerDay ≤ t) && decide (now - 90 * msPerDay ≤ t))
    ∧ (getStorageUsage now entries).1.last365Days
      = ((entries.filter (fun e => e.imageUrl.isSome)).filterMap Entry.createdAt).countP
          (fun t => !decide (now - 30 * msPerDay ≤ t) && !decide (now - 90 * msPerDay ≤ t)
            && decide (now - 365 * msPerDay ≤ t))
    ∧ (getStorageUsage now entries).1.older
      = ((entries.filter (fun e => e.imageUrl.isSome)).filterMap Entry.createdAt).countP
          (fun t => !decide (now - 30 * msPerDay ≤ t) && !decide (now - 90 * msPerDay ≤ t)
            && !decide (now - 365 * msPerDay ≤ t))
    ∧ ((getStorageUsage now entries).1.oldestFileDate = none
        ↔ (entries.filter (fun e => e.imageUrl.isSome)).filterMap Entry.createdAt = [])
    ∧ (∀ m : Int, (getStorageUsage now entries).1.oldestFileDate = some m →
        m ∈ (entries.filter (fun e => e.imageUrl.isSome)).filterMap Entry.createdAt
        ∧ ∀ t ∈ (entries.filter (fun e => e.imageUrl.isSome)).filterMap Entry.createdAt,
            m ≤ t)
    ∧ ((getStorageUsage now entries).1.newestFileDate = none
        ↔ (entries.filter (fun e => e.imageUrl.isSome)).filterMap Entry.createdAt = [])
    ∧ (∀ m : Int, (getStorageUsage now entries).1.newestFileDate = some m →
        m ∈ (entries.filter (fun e => e.imageUrl.isSome)).filterMap Entry.createdAt
        ∧ ∀ t ∈ (entries.filter (fun e => e.imageUrl.isSome)).filterMap Entry.createdAt,
            t ≤ m)
    ∧ (getStorageUsage now entries).2
      = generateStorageRecommendations (getStorageUsage now entries).1
    ∧ (∀ st : StorageUsageStats, generateStorageRecommendations st =
        (if 0 < st.older then [Recommendation.deleteOldImages st.older] else [])
        ++ (if 100 < st.last365Days then [Recommendation.scheduleAutomaticCleanup] else [])
        ++ (if 5 < ((st.totalSizeBytes : Rat) / (1024 * 1024 * 1024)) * ((26 : Rat) / 1000)
            then [Recommendation.highMonthlyCost
              (toFixedCents (((st.totalSizeBytes : Rat) / (1024 * 1024 * 1024))
                * ((26 : Rat) / 1000)))] else [])
        ++ (if 1000 < st.totalFiles then [Recommendation.reduceImageQuality] else [])) := by
  have hf := statsFold now (entries.filter (fun e => e.imageUrl.isSome)) emptyStats
  have hmin := foldl_optMinStep_none_spec
    ((entries.filter (fun e => e.imageUrl.isSome)).filterMap Entry.createdAt)
  have hmax := foldl_optMaxStep_none_spec
    ((entries.filter (fun e => e.imageUrl.isSome)).filterMap Entry.createdAt)
  refine ⟨?_, ?_, ?_, ?_, ?_, ?_, ?_, ?_, ?_, ?_, rfl, fun st => rfl⟩
  · show ((entries.filter (fun e => e.imageUrl.isSome)).foldl
        (statsStep now) emptyStats).totalFiles = _
    rw [hf.1]
    simp [emptyStats]
  · show ((entries.filter (fun e => e.imageUrl.isSome)).foldl
        (statsStep now) emptyStats).totalFiles * (500 * 1024) = _
    rw [hf.1]
    simp [emptyStats]
  · show ((entries.filter (fun e => e.imageUrl.isSome)).foldl
        (statsStep now) emptyStats).last30Days = _
    rw [hf.2.2.1]
    simp [emptyStats]
  · show ((entries.filter (fun e => e.imageUrl.isSome)).foldl
        (statsStep now) emptyStats).last90Days = _
    rw [hf.2.2.2.1]
    simp [emptyStats]
  · show ((entries.filter (fun e => e.imageUrl.isSome)).foldl
        (statsStep now) emptyStats).last365Days = _
    rw [hf.2.2.2.2.1]
    simp [emptyStats]
  · show ((entries.filter (fun e => e.imageUrl.isSome)).foldl
        (statsStep now) emptyStats).older = _
    rw [hf.2.2.2.2.2.1]
    simp [emptyStats]
  · show ((entries.filter (fun e => e.imageUrl.isSome)).foldl
        (statsStep now) emptyStats).oldestFileDate = none ↔ _
    rw [hf.2.2.2.2.2.2.1]
    exact hmin.1
  · intro m hm
    have hm' : ((entries.filter (fun e => e.imageUrl.isSome)).foldl
        (statsStep now) emptyStats).oldestFileDate = some m := hm
    rw [hf.2.2.2.2.2.2.1] at hm'
    exact hmin.2 m hm'
  · show ((entries.filter (fun e => e.imageUrl.isSome)).foldl
        (statsStep now) emptyStats).newestFileDate = none ↔ _
    rw [hf.2.2.2.2.2.2.2]
    exact hmax.1
  · intro m hm
    have hm' : ((entries.filter (fun e => e.imageUrl.isSome)).foldl
        (statsStep now) emptyStats).newestFileDate = some m := hm
    rw [hf.2.2.2.2.2.2.2] at hm'
    exact hmax.2 m hm'

end Tracker
